import Mathlib

/-!
Verification development for the film-fusion Cloud Mirror & Direct-Link
Resolution Engine.  The Go sources are embedded shallowly: pure string and
path manipulation is translated function by function; database and
filesystem interactions are represented by explicit state (lists of rows,
boolean environment flags) and effect lists.
-/

namespace FilmFusion

abbrev Chars := List Char

/-- Separator characters recognised by the drive-letter regex `[\\/]+`. -/
def sepCh (d : Char) : Bool := d == '\\' || d == '/'

/-- Go `strings.HasPrefix s p`, here `strStartsWith s p`. -/
def strStartsWith (s p : String) : Bool := p.data.isPrefixOf s.data

/-- Go `strings.HasSuffix s p`, here `strEndsWith s p`. -/
def strEndsWith (s p : String) : Bool := p.data.reverse.isPrefixOf s.data.reverse

/-- Go `strings.ToLower` (the inputs in this code base are ASCII). -/
def strToLower (s : String) : String := ⟨s.data.map Char.toLower⟩

def isSpaceCh (c : Char) : Bool := c == ' ' || c == '\t' || c == '\n' || c == '\r'

/-- Go `strings.TrimSpace` (ASCII whitespace). -/
def strTrim (s : String) : String :=
  ⟨((s.data.dropWhile isSpaceCh).reverse.dropWhile isSpaceCh).reverse⟩

/-- Replace every (non-overlapping, left-to-right) occurrence of the
nonempty pattern `p0 :: ptail` by `rep`.  The `fuel` argument (the length
of the scanned list at the outer call) only makes the recursion
structural; every step consumes at least one character, so the fuel
never runs out. -/
def replaceAllFuel (p0 : Char) (ptail rep : Chars) : Nat → Chars → Chars
  | 0, s => s
  | _ + 1, [] => []
  | fuel + 1, c :: rest =>
    if (p0 :: ptail).isPrefixOf (c :: rest) then
      rep ++ replaceAllFuel p0 ptail rep fuel (rest.drop ptail.length)
    else c :: replaceAllFuel p0 ptail rep fuel rest

/-- Go `strings.ReplaceAll s pat rep` (the source never uses an empty pattern). -/
def strReplaceAll (s pat rep : String) : String :=
  match pat.data with
  | [] => s
  | p0 :: ptail => ⟨replaceAllFuel p0 ptail rep.data s.data.length s.data⟩

/-- Replace the first occurrence of the nonempty pattern. -/
def replaceFirstCore (p0 : Char) (ptail rep : Chars) : Chars → Chars
  | [] => []
  | c :: rest =>
    if (p0 :: ptail).isPrefixOf (c :: rest) then rep ++ rest.drop ptail.length
    else c :: replaceFirstCore p0 ptail rep rest

/-- Go `strings.Replace s pat rep 1`. -/
def strReplaceFirst (s pat rep : String) : String :=
  match pat.data with
  | [] => rep ++ s
  | p0 :: ptail => ⟨replaceFirstCore p0 ptail rep.data s.data⟩

/-- Split on `'/'` (used to model lexical path cleaning). -/
def splitSlashAux : Chars → Chars → List Chars
  | acc, [] => [acc.reverse]
  | acc, '/' :: rest => acc.reverse :: splitSlashAux [] rest
  | acc, c :: rest => splitSlashAux (c :: acc) rest

/-- The segment loop of Go `path/filepath.Clean` (unix separators):
drop empty and `"."` segments, resolve `".."` against the stack. -/
def cleanSegsAux (rooted : Bool) : List Chars → List Chars → List Chars
  | acc, [] => acc.reverse
  | acc, s :: rest =>
    if s = [] ∨ s = ['.'] then cleanSegsAux rooted acc rest
    else if s = ['.', '.'] then
      match acc with
      | [] => if rooted then cleanSegsAux rooted [] rest else cleanSegsAux rooted [['.', '.']] rest
      | t :: acct =>
        if t = ['.', '.'] then cleanSegsAux rooted (s :: acc) rest
        else cleanSegsAux rooted acct rest
    else cleanSegsAux rooted (s :: acc) rest

def intercalateSlash : List Chars → Chars
  | [] => []
  | [s] => s
  | s :: rest => s ++ '/' :: intercalateSlash rest

/-- Go `path/filepath.Clean` on a unix system, as a lexical function. -/
def goCleanL (p : Chars) : Chars :=
  if p = [] then ['.']
  else
    let rooted : Bool := match p with | '/' :: _ => true | _ => false
    let segs := cleanSegsAux rooted [] (splitSlashAux [] p)
    if rooted then '/' :: intercalateSlash segs
    else if segs = [] then ['.'] else intercalateSlash segs

/-- Go `path/filepath.Join a b` on a unix system: join non-empty parts
with `"/"` and `Clean` the result. -/
def goJoinL (a b : Chars) : Chars :=
  if a = [] ∧ b = [] then []
  else if a = [] then goCleanL b
  else goCleanL (a ++ '/' :: b)

def goJoin (a b : String) : String := ⟨goJoinL a.data b.data⟩

/-- Scan the reversed character list for the last dot of the final path
element (Go `filepath.Ext`): `seen` holds the characters after the
current position, in original order. -/
def goExtRevAux (seen : Chars) : Chars → Chars
  | [] => []
  | c :: rest =>
    if c = '/' then []
    else if c = '.' then '.' :: seen
    else goExtRevAux (c :: seen) rest

/-- Go `path/filepath.Ext` on a unix system. -/
def goExtL (p : Chars) : Chars := goExtRevAux [] p.reverse

def goExt (p : String) : String := ⟨goExtL p.data⟩

/-- Go slicing `savePath[:len(savePath)-len(fileExt)]` on characters (the paths in
this code base are ASCII, where byte and character indexing agree). -/
def strDropRight (s : String) (n : Nat) : String := ⟨s.data.take (s.data.length - n)⟩

/-- Hex digit value, as in Go `net/url.unhex`. -/
def unhexCh (c : Char) : Option Nat :=
  if '0' ≤ c ∧ c ≤ '9' then some (c.toNat - '0'.toNat)
  else if 'a' ≤ c ∧ c ≤ 'f' then some (c.toNat - 'a'.toNat + 10)
  else if 'A' ≤ c ∧ c ≤ 'F' then some (c.toNat - 'A'.toNat + 10)
  else none

/-- Go `net/url.PathUnescape`: decode every `%XX` escape, fail on a `%`
that is not followed by two hex digits. -/
def pathUnescapeAux : Chars → Option Chars
  | [] => some []
  | c :: rest =>
    if c = '%' then
      match rest with
      | a :: b :: rest2 =>
        match unhexCh a, unhexCh b, pathUnescapeAux rest2 with
        | some ha, some hb, some r => some (Char.ofNat (16 * ha + hb) :: r)
        | _, _, _ => none
      | _ => none
    else
      match pathUnescapeAux rest with
      | some r => some (c :: r)
      | none => none

def pathUnescape (s : String) : Option String :=
  (pathUnescapeAux s.data).map fun l => ⟨l⟩

/-! ## app/utils/pathhelper/pathhelper.go -/

/-- Model of `RemoveDriveLetter`: strip a leading `X:[\\/]+` Windows drive marker. -/
def RemoveDriveLetter (path : String) : String :=
  match path.data with
  | c :: ':' :: d :: rest =>
    if c.isAlpha && sepCh d then ⟨(d :: rest).dropWhile sepCh⟩ else path
  | _ => path

/-- Model of `ConvertToLinuxPath`: drop the drive letter, then backslashes to slashes. -/
def ConvertToLinuxPath (windowsPath : String) : String :=
  strReplaceAll (RemoveDriveLetter windowsPath) "\\" "/"

/-- Model of `ConvertToWindowsPath`: slashes to backslashes. -/
def ConvertToWindowsPath (path : String) : String := strReplaceAll path "/" "\\"

/-- Model of `EnsureLeadingSlash`. -/
def EnsureLeadingSlash (path : String) : String :=
  let p := ConvertToLinuxPath path
  if strStartsWith p "/" then p else "/" ++ p

/-- Model of `RemoveFirstDir`: drop one leading slash, then everything up to and
including the next slash; empty result when no slash remains. -/
def afterFirstSlash : Chars → Option Chars
  | [] => none
  | '/' :: rest => some rest
  | _ :: rest => afterFirstSlash rest

def RemoveFirstDir (path : String) : String :=
  let trimmedPath : Chars := match path.data with | '/' :: rest => rest | l => l
  match afterFirstSlash trimmedPath with
  | some r => ⟨r⟩
  | none => ""

/-- Model of `IsSubPath path prefixPath`: append a trailing slash to `path` when
missing, then test `strings.HasPrefix`. -/
def IsSubPath (path prefixPath : String) : Bool :=
  let p := if strEndsWith path "/" then path else path ++ "/"
  strStartsWith p prefixPath

/-- The result of `json.Unmarshal` on the `FilterRules` string: the Go
function receives a JSON string; this embedding abstracts only the parse
step, keeping the empty-string and parse-failure branches explicit. -/
inductive FilterPayload where
  | empty
  | malformed
  | rules (includeExts downloadExts : List String)
deriving DecidableEq

/-- Model of `checkFileAgainstRules`: an empty rule list allows every file;
otherwise compare the lowercased extension against each rule, adding a
leading dot to a rule that lacks one. -/
def checkFileAgainstRules (filePath : String) (rules : List String) : Bool :=
  if rules.isEmpty then true
  else
    let fileExt := strToLower (goExt filePath)
    rules.any fun rule =>
      let r := strToLower (strTrim rule)
      let r := if r ≠ "" ∧ strStartsWith r "." = false then "." ++ r else r
      r == fileExt

/-- Model of `IsFileMatchedByFilter filePath filterRules filterType`. -/
def IsFileMatchedByFilter (filePath : String) (filterRules : FilterPayload)
    (filterType : String) : Bool :=
  match filterRules with
  | .empty => true
  | .malformed => false
  | .rules includeExts downloadExts =>
    match filterType with
    | "include" => checkFileAgainstRules filePath includeExts
    | "download" => checkFileAgainstRules filePath downloadExts
    | _ => false

/-- Model of `IsFileInAnyFilterRules`. -/
def IsFileInAnyFilterRules (filePath : String) (filterRules : FilterPayload) : Bool :=
  match filterRules with
  | .empty => false
  | .malformed => false
  | .rules includeExts downloadExts =>
    (!includeExts.isEmpty && checkFileAgainstRules filePath includeExts) ||
    (!downloadExts.isEmpty && checkFileAgainstRules filePath downloadExts)

/-! ## app/model (Match302, download queue, pickcode cache) -/

def StorageType115Open : String := "115open"
def StrmContentTypePath : String := "path"

structure CloudStorageRef where
  storageType : String
deriving DecidableEq

structure Match302 where
  sourcePath : String
  targetPath : String
  cloudStorage : Option CloudStorageRef
deriving DecidableEq

/-- Model of `Match302.GetMatchedPath`: percent-decode the request path (returning
it verbatim when decoding fails), normalise every path, and substitute the
first occurrence of the source prefix when it is a sub-path. -/
def GetMatchedPath (m : Match302) (targetPath : String) : String :=
  match pathUnescape targetPath with
  | none => targetPath
  | some decodedTargetPath =>
    let normalizedSource := EnsureLeadingSlash m.sourcePath
    let normalizedTarget := EnsureLeadingSlash decodedTargetPath
    let normalizedTargetPath := EnsureLeadingSlash m.targetPath
    if IsSubPath normalizedTarget normalizedSource then
      strReplaceAll (strReplaceFirst normalizedTarget normalizedSource normalizedTargetPath) "//" "/"
    else normalizedTarget

/-- Model of `EmbyProxyHandler.checkMatch302`: walk the rule table in order,
skipping rules without a 115open storage, rules that do not rewrite the
path, and rules whose download-URL resolution fails; return
`("", false)` when nothing matched.  `getDownloadURL` stands for the
remote resolution (`none` models its error path). -/
def checkMatch302 (rules : List Match302) (getDownloadURL : String → Option String)
    (filePath : String) : String × Bool :=
  match rules with
  | [] => ("", false)
  | m :: rest =>
    match m.cloudStorage with
    | none => checkMatch302 rest getDownloadURL filePath
    | some cs =>
      if cs.storageType ≠ StorageType115Open then checkMatch302 rest getDownloadURL filePath
      else
        let matchedPath := GetMatchedPath m filePath
        if matchedPath = filePath then checkMatch302 rest getDownloadURL filePath
        else
          match getDownloadURL matchedPath with
          | none => checkMatch302 rest getDownloadURL filePath
          | some url => (url, true)

def QueueStatusPending : String := "pending"
def QueueStatusDownloading : String := "downloading"
def QueueStatusCompleted : String := "completed"
def QueueStatusFailed : String := "failed"

/-- Model of `model.Download115Queue` (the Go `int` counters only ever hold
non-negative values in this code, so `Nat` is used). -/
structure Download115Queue where
  id : Nat
  cloudStorageID : Nat
  pickCode : String
  savePath : String
  retryCount : Nat
  maxRetryCount : Nat
  lastError : String
  status : String
deriving DecidableEq

/-- Model of `Download115Queue.CanRetry`. -/
def CanRetry (q : Download115Queue) : Bool :=
  decide (q.retryCount < q.maxRetryCount) && (q.status != QueueStatusCompleted)

/-- Model of `Download115Queue.IncrementRetry`. -/
def IncrementRetry (q : Download115Queue) : Download115Queue :=
  { q with retryCount := q.retryCount + 1 }

/-- Model of `Download115Queue.SetError`. -/
def SetError (q : Download115Queue) (errMsg : String) : Download115Queue :=
  let q := { q with lastError := errMsg }
  if q.retryCount ≥ q.maxRetryCount then { q with status := QueueStatusFailed }
  else { q with status := QueueStatusPending }

/-- Model of `Download115Service.handleTaskError`: `task.IncrementRetry()` then
`task.SetError(err)` (the saved row is the returned record). -/
def handleTaskError (q : Download115Queue) (errMsg : String) : Download115Queue :=
  SetError (IncrementRetry q) errMsg

/-- The `WHERE` clause of `processPendingTasks`:
`status = pending OR (status = failed AND retry_count < max_retry_count)`. -/
def pendingOrRetryableFailed (t : Download115Queue) : Bool :=
  t.status == QueueStatusPending ||
    (t.status == QueueStatusFailed && decide (t.retryCount < t.maxRetryCount))

/-- A task reaches `downloadTask` only when the poll query selects it and
the `CanRetry` guard in the dispatch loop passes. -/
def dispatchedByPoll (t : Download115Queue) : Bool :=
  pendingOrRetryableFailed t && CanRetry t

/-- Model of `Download115Service.AddDownloadTask` over an explicit queue state:
duplicate `pick_code` check first, then the cloud-storage existence check,
then insertion of a fresh pending row (`MaxRetryCount` 3). -/
def AddDownloadTask (queue : List Download115Queue) (storageExists : Bool)
    (cloudStorageID : Nat) (pickCode savePath : String) (newId : Nat) :
    Option String × List Download115Queue :=
  if queue.any fun t => t.pickCode == pickCode then
    (some "download task already exists", queue)
  else if storageExists = false then
    (some "cloud storage config does not exist", queue)
  else
    let task : Download115Queue :=
      { id := newId, cloudStorageID := cloudStorageID, pickCode := pickCode,
        savePath := savePath, retryCount := 0, maxRetryCount := 3,
        lastError := "", status := QueueStatusPending }
    (none, queue ++ [task])

/-- Model of `model.PickcodeCache` rows (timestamps omitted; they play no role in
the claims). -/
structure PickcodeCache where
  filePath : String
  pickcode : String
deriving DecidableEq

/-- The `db.Where("file_path = ?", filePath).First` lookup. -/
def findByFilePath (store : List PickcodeCache) (fp : String) : Option PickcodeCache :=
  store.find? fun e => e.filePath == fp

/-- Model of `PickcodeCache.CreateIfNotExists` over an explicit store: return the
existing row with `created = false` when the path is present, else insert
a new row. -/
def CreateIfNotExists (store : List PickcodeCache) (filePath pickcode : String) :
    PickcodeCache × Bool × List PickcodeCache :=
  match findByFilePath store filePath with
  | some existing => (existing, false, store)
  | none =>
    let newCache : PickcodeCache := { filePath := filePath, pickcode := pickcode }
    (newCache, true, store ++ [newCache])

/-! ## app/utils/downloader/downloader.go -/

inductive BodyEnd where
  | eof
  | readErr
deriving DecidableEq

inductive DlError where
  | fileExists | newRequest | httpDo | badStatus | mkdir | create
  | write | read | sync | close | sizeMismatch | rename
deriving DecidableEq

/-- The external world seen by one `DownloadFromURL` call: `chunks` are the
byte counts of the successful body reads, `bodyEnd` is the terminal read
result, `writeFailAt` the index of the chunk whose file write fails. -/
structure DownloadEnv where
  fileExistsAtSave : Bool
  newRequestOk : Bool
  httpDoOk : Bool
  statusCode : Nat
  contentLength : Int
  mkdirOk : Bool
  createOk : Bool
  chunks : List Nat
  bodyEnd : BodyEnd
  writeFailAt : Option Nat
  syncOk : Bool
  closeOk : Bool
  renameOk : Bool

structure DownloadOutcome where
  error : Option DlError
  written : Nat
  fileAtTargetPath : Bool
  renamedToSavePath : Bool
deriving DecidableEq

def writeChunks : List Nat → Option Nat → Nat → Option DlError × Nat
  | [], _, written => (none, written)
  | _ :: _, some 0, written => (some .write, written)
  | n :: rest, some (k + 1), written => writeChunks rest (some k) (written + n)
  | n :: rest, none, written => writeChunks rest none (written + n)

/-- Model of `downloader.DownloadFromURL` (only `UseTemp` and `OverwriteFile` of
the config influence control flow).  `fileAtTargetPath` reports whether a
file is left at `targetPath` (`savePath+".tmp"` when `useTemp`, else
`savePath` itself) when the function returns.

After `os.Create` succeeds the Go variable `err` is nil, and the deferred
cleanup removes `targetPath` only when `err` is non-nil at return time.
Every later failure returns a freshly built error without assigning `err`
(the `Sync`/`Close`/`Rename` checks shadow it with `if err := ...`), so
the deferred removal never fires; only the size-mismatch and rename
branches delete the file explicitly. -/
def DownloadFromURL (useTemp overwriteFile : Bool) (env : DownloadEnv) : DownloadOutcome :=
  if overwriteFile = false ∧ env.fileExistsAtSave = true then
    ⟨some .fileExists, 0, false, false⟩
  else if env.newRequestOk = false then ⟨some .newRequest, 0, false, false⟩
  else if env.httpDoOk = false then ⟨some .httpDo, 0, false, false⟩
  else if env.statusCode ≠ 200 then ⟨some .badStatus, 0, false, false⟩
  else if env.mkdirOk = false then ⟨some .mkdir, 0, false, false⟩
  else if env.createOk = false then ⟨some .create, 0, false, false⟩
  else
    match writeChunks env.chunks env.writeFailAt 0 with
    | (some e, written) => ⟨some e, written, true, false⟩
    | (none, written) =>
      match env.bodyEnd with
      | .readErr => ⟨some .read, written, true, false⟩
      | .eof =>
        if env.syncOk = false then ⟨some .sync, written, true, false⟩
        else if env.closeOk = false then ⟨some .close, written, true, false⟩
        else if 0 < env.contentLength ∧ (written : Int) ≠ env.contentLength then
          ⟨some .sizeMismatch, written, false, false⟩
        else if useTemp then
          if env.renameOk then ⟨none, written, false, true⟩
          else ⟨some .rename, written, false, false⟩
        else ⟨none, written, true, false⟩

/-! ## StrmService / SymlinkService mirror-generation decisions -/

/-- The fields of `model.CloudPath` read by the mirror-generation code. -/
structure CloudPath where
  localPath : String
  sourcePath : String
  contentPrefix : String
  filterRules : FilterPayload
  isWindowsPath : Bool
  strmContentType : String
deriving DecidableEq

/-- Filesystem side effects of `CreateStrmOrDownloadWith115OpenAPI`.
Only actions that actually happen are recorded, in program order. -/
inductive StrmEffect where
  | addDownloadTask (pickCode savePath : String)
  | removeExistingStrm (strmFilePath : String)
  | writeStrm (strmFilePath content : String)
deriving DecidableEq

/-- Environment of one `CreateStrmOrDownloadWith115OpenAPI` call:
`localFileExistsAtSavePath` is the `os.Stat(savePath)` probe,
`strmFileExists` the `os.Stat(strmFilePath)` probe, and the `Ok` flags
the success of `os.Remove`, `os.MkdirAll` and `os.WriteFile`. -/
structure StrmEnv where
  localFileExistsAtSavePath : Bool
  strmFileExists : Bool
  removeOk : Bool
  mkdirOk : Bool
  writeOk : Bool

/-- Model of `StrmService.CreateStrmOrDownloadWith115OpenAPI`.
`getFolderInfoByPath` abstracts the 115 Open API lookup, returning the
pick code of the file at a cloud path (`none` models its error path). -/
def CreateStrmOrDownloadWith115OpenAPI (removeFirstDirFlag : Bool) (env : StrmEnv)
    (getFolderInfoByPath : String → Option String)
    (path : String) (cloudPath : CloudPath) : List StrmEffect :=
  let savePath := goJoin cloudPath.localPath path
  let fileExt := strToLower (goExt savePath)
  let fullPathName := strDropRight savePath fileExt.data.length
  if IsFileMatchedByFilter fileExt cloudPath.filterRules "download" then
    let sourceCloudPath :=
      if removeFirstDirFlag then goJoin "/" (RemoveFirstDir path) else goJoin "/" path
    if env.localFileExistsAtSavePath then []
    else
      match getFolderInfoByPath sourceCloudPath with
      | none => []
      | some pickCode => [.addDownloadTask pickCode savePath]
  else
    let strmFilePath := fullPathName ++ ".strm"
    let removeEffects :=
      if env.strmFileExists then [StrmEffect.removeExistingStrm strmFilePath] else []
    if env.strmFileExists ∧ env.removeOk = false then []
    else
      let content := goJoin cloudPath.contentPrefix path
      let content :=
        if cloudPath.strmContentType = StrmContentTypePath ∧ cloudPath.isWindowsPath = true
        then ConvertToWindowsPath content else content
      if env.mkdirOk = false then removeEffects
      else if env.writeOk = false then removeEffects
      else removeEffects ++ [.writeStrm strmFilePath content]

/-- Result of the `os.Lstat(linkPath)` probe in `SymlinkService.CreateFile`. -/
inductive LstatResult where
  | absent
  | fileOrLink
  | directory
deriving DecidableEq

inductive SymlinkEffect where
  | removeExisting (linkPath : String)
  | createSymlink (linkPath targetPath : String)
deriving DecidableEq

structure SymlinkEnv where
  mkdirOk : Bool
  lstat : LstatResult
  removeOk : Bool
  symlinkOk : Bool

/-- Model of `SymlinkService.normalizePath` on a unix host. -/
def normalizePathLinux (p : String) : String := strReplaceAll p "\\" "/"

/-- Model of `SymlinkService.CreateFile` (unix host): include/download filter
gates, then remove a pre-existing non-directory object and create the
symlink at `linkPath` pointing to `targetPath`. -/
def SymlinkCreateFile (env : SymlinkEnv) (path : String) (cloudPath : CloudPath) :
    List SymlinkEffect :=
  let processPath := if cloudPath.isWindowsPath then ConvertToLinuxPath path else path
  if cloudPath.localPath = "" then []
  else if cloudPath.filterRules ≠ FilterPayload.empty ∧
      IsFileMatchedByFilter processPath cloudPath.filterRules "include" = false then []
  else if cloudPath.filterRules ≠ FilterPayload.empty ∧
      IsFileMatchedByFilter processPath cloudPath.filterRules "download" = true then []
  else
    let linkPath := goJoin cloudPath.localPath processPath
    let targetPath := goJoin cloudPath.contentPrefix processPath
    if env.mkdirOk = false then []
    else
      match env.lstat with
      | .directory => []
      | .fileOrLink =>
        if env.removeOk = false then []
        else if env.symlinkOk then
          [.removeExisting linkPath,
           .createSymlink (normalizePathLinux linkPath) (normalizePathLinux targetPath)]
        else [.removeExisting linkPath]
      | .absent =>
        if env.symlinkOk then
          [.createSymlink (normalizePathLinux linkPath) (normalizePathLinux targetPath)]
        else []

/-! ## Helper lemmas -/

theorem isPrefixOf_append_self (l t : List Char) : l.isPrefixOf (l ++ t) = true := by
  induction l with
  | nil => simp [List.isPrefixOf]
  | cons c rest ih => simp [List.isPrefixOf, ih]

theorem string_data_append (a b : String) : (a ++ b).data = a.data ++ b.data := rfl

theorem pathUnescapeAux_of_noPercent (l : Chars) (h : l.contains '%' = false) :
    pathUnescapeAux l = some l := by
  induction l with
  | nil => simp [pathUnescapeAux]
  | cons c rest ih =>
    have hc : ¬ c = '%' := by
      intro heq
      subst heq
      simp [List.contains] at h
    have hrest : rest.contains '%' = false := by
      simp [List.contains] at h ⊢
      exact h.2
    have hr := ih hrest
    cases rest with
    | nil => simp [pathUnescapeAux, hc]
    | cons a rest1 =>
      have ha : ¬ a = '%' := by
        intro heq
        subst heq
        simp [List.contains] at hrest
      cases rest1 with
      | nil => simp [pathUnescapeAux, hc, ha]
      | cons b rest2 => simp [pathUnescapeAux, hc, hr]

/-! ## Claim theorems -/

/-- C2, counterexample: with a well-formed rule value whose `download`
list is empty, `IsFileMatchedByFilter` for kind `download` returns `true`,
not `false` as the claim states. -/
theorem c2_counterexample :
    IsFileMatchedByFilter ".mkv" (FilterPayload.rules ["mkv"] []) "download" = true := by
  decide

/-- C2, amended: for a well-formed filter-rule value, an empty `include`
list makes the `include` kind match every file, and an empty `download`
list likewise makes the `download` kind match every file (empty means
match-everything for both kinds; only a malformed payload or an unknown
kind yields `false`). -/
theorem c2_empty_rule_lists (p : String) (includeExts downloadExts : List String) :
    IsFileMatchedByFilter p (FilterPayload.rules [] downloadExts) "include" = true ∧
    IsFileMatchedByFilter p (FilterPayload.rules includeExts []) "download" = true := by
  constructor <;> simp [IsFileMatchedByFilter, checkFileAgainstRules]

/-- C4: the boundary is inclusive (`IsSubPath p p` always holds), but the
code evaluated at the claim's non-segment-aligned example returns `true`:
`IsSubPath` appends the trailing slash to `path` instead of to the
prefix, so `/movie2` is reported as a sub-path of `/movie`, contradicting
the claim (and the stated intent of the code comment). -/
theorem c4_boundary_eval :
    (∀ p : String, IsSubPath p p = true) ∧ IsSubPath "/movie2" "/movie" = true := by
  refine ⟨fun p => ?_, by decide⟩
  unfold IsSubPath strStartsWith
  by_cases h : strEndsWith p "/" = true
  · simp only [h, if_true]
    have := isPrefixOf_append_self p.data []
    rwa [List.append_nil] at this
  · simp only [Bool.not_eq_true] at h
    simp only [h, Bool.false_eq_true, if_false]
    rw [string_data_append]
    exact isPrefixOf_append_self p.data "/".data

/-- C8: evaluation of `DownloadFromURL` at the failing input — a
temp-file download whose body read fails after 5 of 10 announced bytes:
the call reports the read error but the temporary file is left on disk
(`fileAtTargetPath = true`), because the deferred cleanup tests the stale
`err` variable, which is still nil after `os.Create`; the claim (and the
code's own cleanup comment) require the temporary file to be removed on
any failure. -/
theorem c8_temp_left_on_read_error :
    DownloadFromURL true false
      { fileExistsAtSave := false, newRequestOk := true, httpDoOk := true,
        statusCode := 200, contentLength := 10, mkdirOk := true, createOk := true,
        chunks := [5], bodyEnd := BodyEnd.readErr, writeFailAt := none,
        syncOk := true, closeOk := true, renameOk := true } =
      { error := some DlError.read, written := 5,
        fileAtTargetPath := true, renamedToSavePath := false } := by
  decide

/-- C9: when a pickcode cache entry for the path already exists,
`CreateIfNotExists` returns it with `created = false` and leaves the
store untouched, whatever pickcode is passed in; and the store keeps at
most one entry per path. -/
theorem c9_cache_never_overwritten :
    (∀ (store : List PickcodeCache) (fp pc : String) (e : PickcodeCache),
      findByFilePath store fp = some e →
      CreateIfNotExists store fp pc = (e, false, store)) ∧
    (∀ (store : List PickcodeCache) (fp pc : String),
      (store.map PickcodeCache.filePath).Nodup →
      (((CreateIfNotExists store fp pc).2.2).map PickcodeCache.filePath).Nodup) := by
  constructor
  · intro store fp pc e h
    simp [CreateIfNotExists, h]
  · intro store fp pc h
    unfold CreateIfNotExists
    cases hfind : findByFilePath store fp with
    | some e => exact h
    | none =>
      simp only []
      rw [List.map_append]
      simp only [List.map_cons, List.map_nil]
      rw [List.nodup_append]
      refine ⟨h, List.nodup_singleton _, ?_⟩
      intro a ha hb
      simp only [List.mem_singleton] at hb
      subst hb
      unfold findByFilePath at hfind
      rw [List.find?_eq_none] at hfind
      rcases List.mem_map.mp ha with ⟨x, hx, hfp⟩
      exact absurd (by simp [hfp]) (hfind x hx)

/-- C9, witness: a store holding an entry for `/a` keeps that entry (with
its original pickcode) when `CreateIfNotExists` is called again with a
different pickcode, and uniqueness of paths is preserved. -/
theorem c9_cache_never_overwritten_witness :
    CreateIfNotExists [⟨"/a", "pc-old"⟩] "/a" "pc-new" = (⟨"/a", "pc-old"⟩, false, [⟨"/a", "pc-old"⟩]) ∧
    (((CreateIfNotExists [⟨"/a", "pc-old"⟩] "/b" "pc2").2.2).map PickcodeCache.filePath).Nodup :=
  ⟨c9_cache_never_overwritten.1 [⟨"/a", "pc-old"⟩] "/a" "pc-new" ⟨"/a", "pc-old"⟩ (by decide),
   c9_cache_never_overwritten.2 [⟨"/a", "pc-old"⟩] "/b" "pc2" (by decide)⟩

/-- C6: after a failed attempt (`handleTaskError`), the task's
`retryCount` is exactly one greater, `lastError` records the failure, the
status is `pending` precisely when the new count is still below
`maxRetryCount` and `failed` otherwise; and a `failed` task whose
`retryCount` has reached `maxRetryCount` is never dispatched by the poll
loop (neither selected by the query nor passed by the `CanRetry` guard). -/
theorem c6_retry_state_machine (t : Download115Queue) (e : String) :
    (handleTaskError t e).retryCount = t.retryCount + 1 ∧
    (handleTaskError t e).lastError = e ∧
    (t.retryCount + 1 < t.maxRetryCount → (handleTaskError t e).status = QueueStatusPending) ∧
    (t.maxRetryCount ≤ t.retryCount + 1 → (handleTaskError t e).status = QueueStatusFailed) ∧
    (∀ u : Download115Queue, u.status = QueueStatusFailed →
      u.maxRetryCount ≤ u.retryCount → dispatchedByPoll u = false) := by
  refine ⟨?_, ?_, ?_, ?_, ?_⟩
  · simp only [handleTaskError, SetError, IncrementRetry]
    split <;> rfl
  · simp only [handleTaskError, SetError, IncrementRetry]
    split <;> rfl
  · intro hlt
    simp only [handleTaskError, SetError, IncrementRetry]
    split
    · exfalso
      omega
    · rfl
  · intro hge
    simp only [handleTaskError, SetError, IncrementRetry]
    split
    · rfl
    · exfalso
      omega
  · intro u hs hge
    unfold dispatchedByPoll pendingOrRetryableFailed CanRetry
    rw [hs]
    simp [QueueStatusFailed, QueueStatusPending, QueueStatusCompleted]
    omega

/-- C6, witness: a downloading task with one prior retry and budget 3
returns to `pending` with count 2 and the error recorded; a second task
that is `failed` at its budget is not dispatched by the poll loop. -/
theorem c6_retry_state_machine_witness :
    (handleTaskError
      { id := 1, cloudStorageID := 1, pickCode := "pc", savePath := "/s",
        retryCount := 1, maxRetryCount := 3, lastError := "",
        status := QueueStatusDownloading } "boom").status = QueueStatusPending ∧
    (handleTaskError
      { id := 1, cloudStorageID := 1, pickCode := "pc", savePath := "/s",
        retryCount := 2, maxRetryCount := 3, lastError := "",
        status := QueueStatusDownloading } "boom").status = QueueStatusFailed ∧
    dispatchedByPoll
      { id := 2, cloudStorageID := 1, pickCode := "pc2", savePath := "/s2",
        retryCount := 3, maxRetryCount := 3, lastError := "boom",
        status := QueueStatusFailed } = false :=
  ⟨(c6_retry_state_machine
      { id := 1, cloudStorageID := 1, pickCode := "pc", savePath := "/s",
        retryCount := 1, maxRetryCount := 3, lastError := "",
        status := QueueStatusDownloading } "boom").2.2.1 (by decide),
   (c6_retry_state_machine
      { id := 1, cloudStorageID := 1, pickCode := "pc", savePath := "/s",
        retryCount := 2, maxRetryCount := 3, lastError := "",
        status := QueueStatusDownloading } "boom").2.2.2.1 (by decide),
   (c6_retry_state_machine
      { id := 1, cloudStorageID := 1, pickCode := "pc", savePath := "/s",
        retryCount := 0, maxRetryCount := 3, lastError := "",
        status := QueueStatusPending } "x").2.2.2.2
      { id := 2, cloudStorageID := 1, pickCode := "pc2", savePath := "/s2",
        retryCount := 3, maxRetryCount := 3, lastError := "boom",
        status := QueueStatusFailed } (by decide) (by decide)⟩

/-- C7: when the queue already holds a non-terminal task for the same
pickcode, `AddDownloadTask` returns the duplicate error and the queue is
unchanged — no second row is created. -/
theorem c7_duplicate_task (queue : List Download115Queue) (storageExists : Bool)
    (cid : Nat) (pc sp : String) (newId : Nat)
    (h : ∃ t ∈ queue, t.pickCode = pc ∧ t.status ≠ QueueStatusCompleted ∧
      t.status ≠ QueueStatusFailed) :
    AddDownloadTask queue storageExists cid pc sp newId =
      (some "download task already exists", queue) := by
  obtain ⟨t, hmem, hpc, -, -⟩ := h
  have hany : (queue.any fun u => u.pickCode == pc) = true :=
    List.any_eq_true.mpr ⟨t, hmem, by simp [hpc]⟩
  unfold AddDownloadTask
  rw [hany]
  simp

/-- C7, witness: adding a pickcode that already has a pending task leaves
the one-element queue unchanged and reports the duplicate. -/
theorem c7_duplicate_task_witness :
    AddDownloadTask
      [{ id := 1, cloudStorageID := 1, pickCode := "pc", savePath := "/s",
         retryCount := 0, maxRetryCount := 3, lastError := "",
         status := QueueStatusPending }] true 1 "pc" "/other" 2 =
      (some "download task already exists",
       [{ id := 1, cloudStorageID := 1, pickCode := "pc", savePath := "/s",
          retryCount := 0, maxRetryCount := 3, lastError := "",
          status := QueueStatusPending }]) :=
  c7_duplicate_task
    [{ id := 1, cloudStorageID := 1, pickCode := "pc", savePath := "/s",
       retryCount := 0, maxRetryCount := 3, lastError := "",
       status := QueueStatusPending }] true 1 "pc" "/other" 2
    ⟨{ id := 1, cloudStorageID := 1, pickCode := "pc", savePath := "/s",
       retryCount := 0, maxRetryCount := 3, lastError := "",
       status := QueueStatusPending }, by decide, by decide, by decide, by decide⟩

/-- C5, counterexample: for a rule whose source prefix does not match,
`GetMatchedPath` does not return its input unchanged — the input
`/a%20b` comes back percent-decoded as `/a b`. -/
theorem c5_counterexample :
    GetMatchedPath
      { sourcePath := "/x", targetPath := "/y",
        cloudStorage := some ⟨StorageType115Open⟩ } "/a%20b" = "/a b" ∧
    ("/a b" : String) ≠ "/a%20b" := by
  constructor
  · decide
  · decide

/-- C5, amended: for every rule whose source prefix is not a sub-path of
the decoded, normalised request path, `GetMatchedPath` returns that
decoded normalised path with no substitution (hence the input itself
whenever the input is already percent-free and canonical); and when no
rule in the table rewrites the path, `checkMatch302` returns
`matched = false` with an empty URL, leaving the caller to fall back to
passthrough. -/
theorem c5_no_match_passthrough :
    (∀ (m : Match302) (p d : String), pathUnescape p = some d →
      IsSubPath (EnsureLeadingSlash d) (EnsureLeadingSlash m.sourcePath) = false →
      GetMatchedPath m p = EnsureLeadingSlash d) ∧
    (∀ (rules : List Match302) (oracle : String → Option String) (p : String),
      (∀ m ∈ rules, GetMatchedPath m p = p) →
      checkMatch302 rules oracle p = ("", false)) := by
  constructor
  · intro m p d h1 h2
    unfold GetMatchedPath
    rw [h1]
    simp [h2]
  · intro rules oracle p h
    induction rules with
    | nil => rfl
    | cons m rest ih =>
      have hm := h m (by simp)
      have hrest : ∀ m' ∈ rest, GetMatchedPath m' p = p := fun m' hm' => h m' (by simp [hm'])
      unfold checkMatch302
      cases m.cloudStorage with
      | none => exact ih hrest
      | some cs =>
        dsimp only
        by_cases hst : cs.storageType = StorageType115Open
        · rw [if_neg (not_not_intro hst), if_pos hm]
          exact ih hrest
        · rw [if_pos hst]
          exact ih hrest

/-- C5, witness: a percent-free canonical path with a non-matching rule
comes back unchanged from `GetMatchedPath`, and a one-rule table that
does not rewrite it yields `("", false)` from `checkMatch302`. -/
theorem c5_no_match_passthrough_witness :
    pathUnescape "/a/b.mkv" = some "/a/b.mkv" ∧
    IsSubPath (EnsureLeadingSlash "/a/b.mkv") (EnsureLeadingSlash "/x") = false ∧
    GetMatchedPath
      { sourcePath := "/x", targetPath := "/y",
        cloudStorage := some ⟨StorageType115Open⟩ } "/a/b.mkv" = EnsureLeadingSlash "/a/b.mkv" ∧
    checkMatch302
      [{ sourcePath := "/x", targetPath := "/y",
         cloudStorage := some ⟨StorageType115Open⟩ }]
      (fun _ => some "http://u") "/a/b.mkv" = ("", false) :=
  ⟨by decide, by decide,
   c5_no_match_passthrough.1
     { sourcePath := "/x", targetPath := "/y",
       cloudStorage := some ⟨StorageType115Open⟩ } "/a/b.mkv" "/a/b.mkv"
     (by decide) (by decide),
   c5_no_match_passthrough.2
     [{ sourcePath := "/x", targetPath := "/y",
        cloudStorage := some ⟨StorageType115Open⟩ }]
     (fun _ => some "http://u") "/a/b.mkv"
     (by
       intro m hm
       simp only [List.mem_singleton] at hm
       subst hm
       decide)⟩

/-- C10: `GetMatchedPath` percent-decodes and slash-normalises before any
matching — an input containing an invalid escape sequence is returned
verbatim with no rule match attempted, and on a decodable input the
result coincides with running the function directly on the decoded form
(for decoded forms containing no further escapes). -/
theorem c10_decode_normalize_order :
    (∀ (m : Match302) (s : String), pathUnescape s = none → GetMatchedPath m s = s) ∧
    (∀ (m : Match302) (s d : String), pathUnescape s = some d →
      d.data.contains '%' = false → GetMatchedPath m s = GetMatchedPath m d) := by
  constructor
  · intro m s h
    unfold GetMatchedPath
    rw [h]
  · intro m s d h hd
    have hded : pathUnescape d = some d := by
      unfold pathUnescape
      rw [pathUnescapeAux_of_noPercent d.data hd]
      rfl
    unfold GetMatchedPath
    rw [h, hded]

/-- C10, witness: `/a%zz` (invalid escape) is returned verbatim, and
matching `/a%20b` behaves exactly like matching its decoded form
`/a b`. -/
theorem c10_decode_normalize_order_witness :
    pathUnescape "/a%zz" = none ∧
    GetMatchedPath
      { sourcePath := "/x", targetPath := "/y",
        cloudStorage := some ⟨StorageType115Open⟩ } "/a%zz" = "/a%zz" ∧
    pathUnescape "/a%20b" = some "/a b" ∧
    ("/a b" : String).data.contains '%' = false ∧
    GetMatchedPath
      { sourcePath := "/x", targetPath := "/y",
        cloudStorage := some ⟨StorageType115Open⟩ } "/a%20b" =
      GetMatchedPath
        { sourcePath := "/x", targetPath := "/y",
          cloudStorage := some ⟨StorageType115Open⟩ } "/a b" :=
  ⟨by decide,
   c10_decode_normalize_order.1
     { sourcePath := "/x", targetPath := "/y",
       cloudStorage := some ⟨StorageType115Open⟩ } "/a%zz" (by decide),
   by decide, by decide,
   c10_decode_normalize_order.2
     { sourcePath := "/x", targetPath := "/y",
       cloudStorage := some ⟨StorageType115Open⟩ } "/a%20b" "/a b"
     (by decide) (by decide)⟩

/-- C1, counterexample: a file whose extension is in the download set
does not always get a download task queued — when the local file already
exists at the destination the decision produces no effect at all (zero
download tasks), refuting the claimed "exactly one". -/
theorem c1_counterexample :
    IsFileMatchedByFilter
      (strToLower (goExt (goJoin "/mnt/strm" "/Movies/A/a.srt")))
      (FilterPayload.rules ["mkv"] ["srt"]) "download" = true ∧
    CreateStrmOrDownloadWith115OpenAPI false
      { localFileExistsAtSavePath := true, strmFileExists := false,
        removeOk := true, mkdirOk := true, writeOk := true }
      (fun _ => some "pc1") "/Movies/A/a.srt"
      { localPath := "/mnt/strm", sourcePath := "/Movies",
        contentPrefix := "http://cd2/d",
        filterRules := FilterPayload.rules ["mkv"] ["srt"],
        isWindowsPath := false, strmContentType := "" } = [] := by
  constructor <;> decide

/-- C1, amended: when a file's extension matches the download filter, the
placeholder decision never writes a stream-reference file and queues at
most one download task — exactly one when the file is not already present
locally and the remote pickcode lookup succeeds; and in link mode a
download-matched file (under a non-empty filter payload) produces no
symlink. -/
theorem c1_download_wins :
    (∀ (rfd : Bool) (env : StrmEnv) (gfi : String → Option String)
        (path : String) (cp : CloudPath),
      IsFileMatchedByFilter (strToLower (goExt (goJoin cp.localPath path)))
        cp.filterRules "download" = true →
      (∀ q c, StrmEffect.writeStrm q c ∉
        CreateStrmOrDownloadWith115OpenAPI rfd env gfi path cp) ∧
      (CreateStrmOrDownloadWith115OpenAPI rfd env gfi path cp = [] ∨
        ∃ pc, CreateStrmOrDownloadWith115OpenAPI rfd env gfi path cp =
          [StrmEffect.addDownloadTask pc (goJoin cp.localPath path)]) ∧
      (env.localFileExistsAtSavePath = false → ∀ pc,
        gfi (if rfd then goJoin "/" (RemoveFirstDir path) else goJoin "/" path) = some pc →
        CreateStrmOrDownloadWith115OpenAPI rfd env gfi path cp =
          [StrmEffect.addDownloadTask pc (goJoin cp.localPath path)])) ∧
    (∀ (senv : SymlinkEnv) (path : String) (cp : CloudPath),
      cp.filterRules ≠ FilterPayload.empty →
      IsFileMatchedByFilter (if cp.isWindowsPath then ConvertToLinuxPath path else path)
        cp.filterRules "download" = true →
      SymlinkCreateFile senv path cp = []) := by
  constructor
  · intro rfd env gfi path cp hdl
    have hred : CreateStrmOrDownloadWith115OpenAPI rfd env gfi path cp =
        (if env.localFileExistsAtSavePath then []
         else
           match gfi (if rfd then goJoin "/" (RemoveFirstDir path) else goJoin "/" path) with
           | none => []
           | some pc => [StrmEffect.addDownloadTask pc (goJoin cp.localPath path)]) := by
      dsimp only [CreateStrmOrDownloadWith115OpenAPI]
      rw [if_pos hdl]
    refine ⟨?_, ?_, ?_⟩
    · intro q c hmem
      rw [hred] at hmem
      cases hl : env.localFileExistsAtSavePath with
      | true => simp [hl] at hmem
      | false =>
        cases hg : gfi (if rfd then goJoin "/" (RemoveFirstDir path) else goJoin "/" path) with
        | none => simp [hl, hg] at hmem
        | some pc => simp [hl, hg] at hmem
    · rw [hred]
      cases hl : env.localFileExistsAtSavePath with
      | true => exact Or.inl (by simp)
      | false =>
        cases hg : gfi (if rfd then goJoin "/" (RemoveFirstDir path) else goJoin "/" path) with
        | none => exact Or.inl (by simp)
        | some pc => exact Or.inr ⟨pc, by simp⟩
    · intro hl pc hg
      rw [hred, hl, hg]
      simp
  · intro senv path cp hne hdl
    dsimp only [SymlinkCreateFile]
    by_cases hlp : cp.localPath = ""
    · rw [if_pos hlp]
    · rw [if_neg hlp]
      by_cases hinc : IsFileMatchedByFilter
          (if cp.isWindowsPath then ConvertToLinuxPath path else path)
          cp.filterRules "include" = false
      · rw [if_pos ⟨hne, hinc⟩]
      · rw [if_neg (fun hc => hinc hc.2), if_pos ⟨hne, hdl⟩]

/-- C1, witness: for a download-matched subtitle file absent locally and
a successful pickcode lookup, exactly one download task for the computed
destination is produced, and the symlink service creates nothing for it. -/
theorem c1_download_wins_witness :
    CreateStrmOrDownloadWith115OpenAPI false
      { localFileExistsAtSavePath := false, strmFileExists := false,
        removeOk := true, mkdirOk := true, writeOk := true }
      (fun _ => some "pc1") "/Movies/A/a.srt"
      { localPath := "/mnt/strm", sourcePath := "/Movies",
        contentPrefix := "http://cd2/d",
        filterRules := FilterPayload.rules ["mkv"] ["srt"],
        isWindowsPath := false, strmContentType := "" } =
      [StrmEffect.addDownloadTask "pc1" (goJoin "/mnt/strm" "/Movies/A/a.srt")] ∧
    SymlinkCreateFile
      { mkdirOk := true, lstat := LstatResult.absent, removeOk := true, symlinkOk := true }
      "/Movies/A/a.srt"
      { localPath := "/mnt/strm", sourcePath := "/Movies",
        contentPrefix := "/mnt/cd2",
        filterRules := FilterPayload.rules ["mkv", "srt"] ["srt"],
        isWindowsPath := false, strmContentType := "" } = [] :=
  ⟨(c1_download_wins.1 false
      { localFileExistsAtSavePath := false, strmFileExists := false,
        removeOk := true, mkdirOk := true, writeOk := true }
      (fun _ => some "pc1") "/Movies/A/a.srt"
      { localPath := "/mnt/strm", sourcePath := "/Movies",
        contentPrefix := "http://cd2/d",
        filterRules := FilterPayload.rules ["mkv"] ["srt"],
        isWindowsPath := false, strmContentType := "" } (by decide)).2.2 rfl "pc1" rfl,
   c1_download_wins.2
     { mkdirOk := true, lstat := LstatResult.absent, removeOk := true, symlinkOk := true }
     "/Movies/A/a.srt"
     { localPath := "/mnt/strm", sourcePath := "/Movies",
       contentPrefix := "/mnt/cd2",
       filterRules := FilterPayload.rules ["mkv", "srt"] ["srt"],
       isWindowsPath := false, strmContentType := "" } (by decide) (by decide)⟩

/-- C3, counterexample: for the spec's own example rule
(`local=/mnt/strm`, `content_prefix=http://cd2/d`) and remote file
`/Movies/A/a.mkv`, the placeholder is written at
`/mnt/strm/Movies/A/a.strm` (the full remote path is kept under the local
root, not the source-stripped `/mnt/strm/A/a.strm`) and its content is
`http:/cd2/d/Movies/A/a.mkv` — `filepath.Join` collapses the `//` of the
prefix — not the claimed concatenation `http://cd2/d/A/a.mkv`. -/
theorem c3_counterexample :
    CreateStrmOrDownloadWith115OpenAPI false
      { localFileExistsAtSavePath := false, strmFileExists := false,
        removeOk := true, mkdirOk := true, writeOk := true }
      (fun _ => some "pc1") "/Movies/A/a.mkv"
      { localPath := "/mnt/strm", sourcePath := "/Movies",
        contentPrefix := "http://cd2/d",
        filterRules := FilterPayload.rules ["mkv"] ["srt"],
        isWindowsPath := false, strmContentType := "" } =
      [StrmEffect.writeStrm "/mnt/strm/Movies/A/a.strm" "http:/cd2/d/Movies/A/a.mkv"] ∧
    ("/mnt/strm/Movies/A/a.strm" : String) ≠ "/mnt/strm/A/a.strm" ∧
    ("http:/cd2/d/Movies/A/a.mkv" : String) ≠ "http://cd2/d/A/a.mkv" := by
  refine ⟨by decide, by decide, by decide⟩

/-- C3, amended: for a file not matched by the download filter (on a
non-Windows rule, with the filesystem cooperating), the decision deletes
any prior file at the placeholder path and writes exactly one placeholder
there; the placeholder path is `filepath.Join(localPath, path)` with the
extension replaced by `.strm`, and its content is
`filepath.Join(contentPrefix, path)` — a path-cleaning join of prefix and
full remote path, not a plain string concatenation. -/
theorem c3_placeholder_write (env : StrmEnv) (rfd : Bool) (gfi : String → Option String)
    (path : String) (cp : CloudPath)
    (hdl : IsFileMatchedByFilter (strToLower (goExt (goJoin cp.localPath path)))
      cp.filterRules "download" = false)
    (hwin : cp.isWindowsPath = false)
    (hrm : env.removeOk = true) (hmk : env.mkdirOk = true) (hwr : env.writeOk = true) :
    CreateStrmOrDownloadWith115OpenAPI rfd env gfi path cp =
      (if env.strmFileExists then
        [StrmEffect.removeExistingStrm
          (strDropRight (goJoin cp.localPath path)
            (strToLower (goExt (goJoin cp.localPath path))).data.length ++ ".strm")]
       else []) ++
      [StrmEffect.writeStrm
        (strDropRight (goJoin cp.localPath path)
          (strToLower (goExt (goJoin cp.localPath path))).data.length ++ ".strm")
        (goJoin cp.contentPrefix path)] := by
  simp [CreateStrmOrDownloadWith115OpenAPI, hdl, hrm, hmk, hwr, hwin]

/-- C3, witness: the amended statement evaluated on the example tree,
with a stale placeholder present: the old file is removed first, then the
placeholder is rewritten with the joined content. -/
theorem c3_placeholder_write_witness :
    CreateStrmOrDownloadWith115OpenAPI false
      { localFileExistsAtSavePath := false, strmFileExists := true,
        removeOk := true, mkdirOk := true, writeOk := true }
      (fun _ => none) "/Movies/A/a.mkv"
      { localPath := "/mnt/strm", sourcePath := "/Movies",
        contentPrefix := "http://cd2/d",
        filterRules := FilterPayload.rules ["mkv"] ["srt"],
        isWindowsPath := false, strmContentType := "" } =
      [StrmEffect.removeExistingStrm "/mnt/strm/Movies/A/a.strm",
       StrmEffect.writeStrm "/mnt/strm/Movies/A/a.strm" "http:/cd2/d/Movies/A/a.mkv"] := by
  rw [c3_placeholder_write _ _ _ _ _ (by decide) rfl rfl rfl rfl]
  decide

end FilmFusion
